import Mathlib

/-!
Verification of the condition-derivation and diet-plan generation engine of
the Oxyheal backend (src/backend/app/diet.py, with the assessment and report
persistence shapes from src/backend/app/lung_cancer.py).

The Python code is shallowly embedded: each Python function becomes a Lean
definition with the same name; dynamically-typed dict fields become small
inductive sum types covering the value shapes the repository actually
produces; the external Supabase store becomes an explicit `Store` record and
the plan endpoint a state-passing function.

CPython `list(set(xs))` iterates a hash table whose order depends on the
per-process string-hash seed, so the program is not a deterministic function
of its input at that point.  We model it by a parameter
`setOrder : List String → List String` constrained by `Admissible`
(duplicate-free, same membership as the input), quantifying theorems over
every admissible order.
-/

namespace Oxyheal

/-! ### Python string and list primitives -/

/-- Python `needle in hay` on strings: substring containment. -/
def pyIn (needle hay : String) : Bool :=
  decide (needle.toList <:+: hay.toList)

/-- Python `s.lower()`: character-wise lower-casing (the vocabularies and
inputs here are ASCII, where CPython and `Char.toLower` agree). -/
def pyLower (s : String) : String :=
  String.mk (s.data.map Char.toLower)

/-- Python `", ".join(xs)`. -/
def joinComma (xs : List String) : String :=
  String.intercalate ", " xs

/-- Deduplication keeping the first occurrence of each element, in order
(`seen` accumulates the elements already emitted). -/
def firstDedupAux (seen : List String) : List String → List String
  | [] => []
  | x :: xs =>
    if x ∈ seen then firstDedupAux seen xs
    else x :: firstDedupAux (x :: seen) xs

/-- Deduplication keeping first occurrences: the order in which distinct
elements were first appended. -/
def firstDedup (l : List String) : List String := firstDedupAux [] l

/-- One admissible iteration order of a CPython set: reversed first-occurrence
order.  Used to exhibit that set order need not be first-fired order. -/
def revDedup (l : List String) : List String := (firstDedup l).reverse

/-- `out` is a possible value of CPython `list(set(xs))`: duplicate-free and
containing exactly the elements of `xs` (iteration order unspecified). -/
def IsSetList (xs out : List String) : Prop :=
  out.Nodup ∧ (∀ s ∈ out, s ∈ xs) ∧ (∀ s ∈ xs, s ∈ out)

/-- An admissible model of `fun xs => list(set(xs))` for one process run. -/
def Admissible (f : List String → List String) : Prop :=
  ∀ xs, IsSetList xs (f xs)

/-- Lexicographic less-or-equal on character lists by code point, the
comparison CPython uses for strings. -/
def charListLe : List Char → List Char → Bool
  | [], _ => true
  | _ :: _, [] => false
  | a :: as, b :: bs =>
    if a < b then true
    else if b < a then false
    else charListLe as bs

/-- Python string `<=`: lexicographic by code point. -/
def pyStrLe (a b : String) : Prop := charListLe a.data b.data = true

instance : DecidableRel pyStrLe := fun a b =>
  inferInstanceAs (Decidable (charListLe a.data b.data = true))

/-- Python `sorted(list(s))` for a set `s` of strings: since distinct strings
are strictly ordered, the result is the canonical sorted duplicate-free list
of the elements, independent of the iteration order of `s`. -/
def pySortedSet (xs : List String) : List String :=
  List.insertionSort pyStrLe (firstDedup xs)

/-! ### Data model: persisted shapes (lung_cancer.py pydantic models) -/

/-- `Demographics` (lung_cancer.py). -/
structure Demographics where
  age : Int
  sex : String
deriving DecidableEq

/-- `SmokingHistory` (lung_cancer.py).  Float fields are modelled as
rationals; no claim depends on them. -/
structure SmokingHistoryRec where
  packsPerDay : ℚ
  yearsSmoked : Int
  packYears : ℚ
  smokingStatus : String
  yearsQuit : Option Int
deriving DecidableEq

/-- `MedicalHistory` (lung_cancer.py). -/
structure MedicalHistory where
  hasLungDisease : Bool
  lungDiseaseTypes : List String
  hasChestRadiation : Bool
  hasFamilyHistory : Bool
  familyHistoryDetails : Option String
deriving DecidableEq

/-- `EnvironmentalExposures` (lung_cancer.py). -/
structure EnvironmentalExposures where
  radonExposure : Bool
  asbestosExposure : Bool
  airPollutionExposure : Bool
  secondhandSmokeExposure : Bool
  exposureDetails : Option String
deriving DecidableEq

/-- `Symptoms` (lung_cancer.py): the boolean-flag object persisted into the
`symptoms` column by `create_assessment`. -/
structure SymptomsFlags where
  persistentCough : Bool
  shortnessOfBreath : Bool
  chestPain : Bool
  unexplainedWeightLoss : Bool
  hemoptysis : Bool
  otherSymptoms : Option String
deriving DecidableEq

/-- `ScreeningEligibility` (lung_cancer.py); `criteria : Dict[str, bool]`
becomes an association list. -/
structure ScreeningEligibility where
  isEligible : Bool
  reason : String
  criteria : List (String × Bool)
  recommendation : String
deriving DecidableEq

/-! ### Data model: the dict view read by the classifier (diet.py) -/

/-- Value shapes of the dynamically-typed `symptoms` entry of the assessment
dict: either a Python list of strings, or the boolean-flag object that
`create_assessment` persists (any non-list fails `isinstance(symptoms, list)`). -/
inductive SymptomsField where
  | strList (items : List String)
  | flags (f : SymptomsFlags)
deriving DecidableEq

/-- Python `isinstance(symptoms, list)`. -/
def SymptomsField.isList : SymptomsField → Bool
  | .strList _ => true
  | .flags _ => false

/-- Value shapes of the `smoking_history` entry: a bare status string, or the
record (dict) persisted by `create_assessment`. -/
inductive SmokingHistoryField where
  | str (s : String)
  | record (r : SmokingHistoryRec)
deriving DecidableEq

/-- The fields of an LDCT report dict that `analyze_assessment_for_diet`
reads: `report.get('findings', '')` and `report.get('lung_rads', 0)`
(absent keys are absorbed into the defaults). -/
structure Report where
  findings : String
  lung_rads : Int
deriving DecidableEq

/-- The assessment dict as read by `analyze_assessment_for_diet`:
`assessment.get('symptoms', [])`, `assessment.get('smoking_history', '')`,
`assessment.get('ldct_reports', [])`.  Missing keys are represented by the
corresponding default values. -/
structure Assessment where
  symptoms : SymptomsField
  smoking_history : SmokingHistoryField
  ldct_reports : List Report
deriving DecidableEq

/-! ### The classifier: analyze_assessment_for_diet (diet.py lines 51-110)

The Python function appends to two parallel lists `conditions` and
`keywords`; both are threaded as a pair. -/

/-- Vocabulary of the inflammation findings rule (diet.py line 87). -/
def inflammation_words : List String :=
  ["opacity", "infiltration", "consolidation", "infection", "bronchitis",
   "pneumonia", "inflammation"]

/-- Vocabulary of the nodule findings rule (diet.py line 92). -/
def nodule_words : List String :=
  ["nodule", "lesion", "mass", "suspicious", "abnormal"]

/-- The six substrings the symptom rules look for (diet.py lines 71-79);
used to state the no-symptom-fires hypothesis of the routine invariant. -/
def symptom_words : List String :=
  ["cough", "mucus", "breath", "shortness", "fatigue", "tired"]

/-- The guard of the smoking rule: Python
`smoking_history in ['current', 'former']`.  A persisted record is a dict and
never equals a string, so only the bare-string shape can pass. -/
def smoking_guard : SmokingHistoryField → Bool
  | .str s => s == "current" || s == "former"
  | .record _ => false

/-- Smoking rule (diet.py lines 63-65): contributions to
(conditions, keywords). -/
def smoking_step (a : Assessment) : List String × List String :=
  if smoking_guard a.smoking_history then (["smoker"], ["smoking"]) else ([], [])

/-- Python `symptoms if isinstance(symptoms, list) else []` (diet.py line 68). -/
def symptom_strings (a : Assessment) : List String :=
  match a.symptoms with
  | .strList items => items
  | .flags _ => []

/-- Symptom rules for one symptom string (diet.py lines 70-79): three
independent substring checks on the lower-cased symptom, appending in
program order mucus, breathlessness, fatigue. -/
def symptom_step (s : String) : List String × List String :=
  let sl := pyLower s
  let p1 := if pyIn "cough" sl || pyIn "mucus" sl
    then (["mucus"], ["cough"]) else ([], [])
  let p2 := if pyIn "breath" sl || pyIn "shortness" sl
    then (["breathlessness"], ["breathlessness"]) else ([], [])
  let p3 := if pyIn "fatigue" sl || pyIn "tired" sl
    then (["fatigue"], ["fatigue"]) else ([], [])
  (p1.1 ++ p2.1 ++ p3.1, p1.2 ++ p2.2 ++ p3.2)

/-- Report rules for one LDCT report (diet.py lines 82-100), threading the
accumulated (conditions, keywords).  The severity rule checks membership in
the conditions accumulated so far, including the keyword rules of the same
report. -/
def report_step (acc : List String × List String) (r : Report) :
    List String × List String :=
  let findings := pyLower r.findings
  let acc1 := if inflammation_words.any (fun w => pyIn w findings)
    then (acc.1 ++ ["inflammation"], acc.2 ++ ["inflammation"]) else acc
  let acc2 := if nodule_words.any (fun w => pyIn w findings)
    then (acc1.1 ++ ["nodules"], acc1.2 ++ ["nodules"]) else acc1
  if 3 ≤ r.lung_rads then
    if "nodules" ∈ acc2.1 then acc2
    else (acc2.1 ++ ["nodules"], acc2.2 ++ ["suspicious_findings"])
  else acc2

/-- Appending the contributions of one symptom to the accumulated pair. -/
def symptom_acc_step (acc : List String × List String) (s : String) :
    List String × List String :=
  (acc.1 ++ (symptom_step s).1, acc.2 ++ (symptom_step s).2)

/-- The (conditions, keywords) pair accumulated by rules 1-3, in append
order (diet.py lines 54-100). -/
def rules_raw (a : Assessment) : List String × List String :=
  let acc0 := smoking_step a
  let acc1 := (symptom_strings a).foldl symptom_acc_step acc0
  a.ldct_reports.foldl report_step acc1

/-- The conditions list after the routine fallback (diet.py lines 103-104),
before the `list(set(...))` conversion. -/
def conditions_raw (a : Assessment) : List String :=
  if (rules_raw a).1 = [] then ["routine"] else (rules_raw a).1

/-- The keywords list after the wellness fallback (diet.py line 105),
before the `list(set(...))` conversion. -/
def keywords_raw (a : Assessment) : List String :=
  if (rules_raw a).1 = [] then (rules_raw a).2 ++ ["wellness"]
  else (rules_raw a).2

/-- Result dict of `analyze_assessment_for_diet`. -/
structure Analysis where
  conditions : List String
  keywords : List String
deriving DecidableEq

/-- `analyze_assessment_for_diet` (diet.py lines 51-110), parameterized by
the set iteration order of this process run. -/
def analyze_assessment_for_diet (setOrder : List String → List String)
    (a : Assessment) : Analysis :=
  { conditions := setOrder (conditions_raw a),
    keywords := setOrder (keywords_raw a) }

/-! ### Content catalog: recommended foods (diet.py lines 113-202) -/

/-- Anti-inflammatory foods (diet.py lines 120-131). -/
def inflammation_foods : List String :=
  ["Turmeric (curcumin reduces inflammation)", "Ginger tea (anti-inflammatory)",
   "Garlic (antimicrobial)", "Tulsi/Holy Basil tea", "Warm vegetable soup",
   "Broccoli & leafy greens", "Citrus fruits (vitamin C)",
   "Papaya, kiwi, strawberries", "Honey + warm water", "Tomato rasam"]

/-- Lung detox foods for smokers (diet.py lines 135-146). -/
def smoker_foods : List String :=
  ["Beetroot juice", "Pomegranate juice", "Carrot juice", "Warm lemon water",
   "Green tea", "Tulsi tea", "Spinach, kale, moringa", "Walnuts & almonds",
   "High-fiber foods", "Ginger-honey tea"]

/-- Antioxidant-rich foods for nodules (diet.py lines 150-162). -/
def nodules_foods : List String :=
  ["Berries (blueberry, strawberry, raspberry)", "Grapes (resveratrol)",
   "Broccoli, cauliflower, cabbage", "Tomatoes (lycopene)",
   "Carrots & sweet potatoes", "Green tea", "Turmeric",
   "Chia seeds, flax seeds", "Whole grains", "Lentils & legumes", "Olive oil"]

/-- Energy-boosting foods for breathlessness or fatigue (diet.py lines 166-174). -/
def energy_foods : List String :=
  ["Iron-rich: spinach, beans, beetroot", "Magnesium: nuts, seeds",
   "Vitamin C: oranges, kiwi, amla", "Warm soups", "Banana + peanut butter",
   "Oats + fruits", "Protein: eggs, paneer, lentils"]

/-- Mucus-clearing foods (diet.py lines 178-185). -/
def mucus_foods : List String :=
  ["Ginger", "Pepper + turmeric milk", "Warm water frequently", "Honey",
   "Herbal tea", "Pineapple (bromelain enzyme)"]

/-- General wellness foods (diet.py lines 189-200). -/
def routine_foods : List String :=
  ["Mixed vegetable khichdi", "Moong dal soup", "Spinach sabji",
   "Chapati + dal + sabji", "Fresh fruit bowl", "Oats + nuts",
   "Lemon-ginger water", "Tulsi tea", "Steamed vegetables", "Sprouts salad"]

/-- `get_recommended_foods` (diet.py lines 113-202).  The Python set with
`update` calls followed by `sorted(list(...))` is modelled as the canonical
sorted deduplicated list of the concatenation; set emptiness before the
routine block equals emptiness of the concatenation since each block adds a
nonempty batch. -/
def get_recommended_foods (conditions : List String) : List String :=
  let recs :=
    (if "inflammation" ∈ conditions then inflammation_foods else [])
    ++ (if "smoker" ∈ conditions then smoker_foods else [])
    ++ (if "nodules" ∈ conditions then nodules_foods else [])
    ++ (if "breathlessness" ∈ conditions ∨ "fatigue" ∈ conditions
        then energy_foods else [])
    ++ (if "mucus" ∈ conditions then mucus_foods else [])
  let recs2 := if "routine" ∈ conditions ∨ recs = []
    then recs ++ routine_foods else recs
  pySortedSet recs2

/-! ### Content catalog: foods to avoid (diet.py lines 205-261) -/

/-- Baseline avoid list common to all lung patients (diet.py lines 211-221),
9 items. -/
def baseline_avoid : List String :=
  ["Smoking/Tobacco", "Alcohol", "Fried foods",
   "Processed meats (sausages, salami)", "Carbonated drinks",
   "Packaged snacks (chips, etc.)", "Excessive sugar", "Ice-cold beverages",
   "Maida products (refined flour)"]

/-- Inflammation-specific avoid list (diet.py lines 225-230). -/
def inflammation_avoid : List String :=
  ["Dairy products (can thicken mucus)", "Cold foods/drinks", "Ice cream",
   "Excessive spicy, oily foods"]

/-- Smoker-specific avoid list (diet.py lines 234-237). -/
def smoker_avoid : List String :=
  ["Red meat", "Processed foods"]

/-- Nodules-specific avoid list (diet.py lines 241-244). -/
def nodules_avoid : List String :=
  ["High-fat foods", "Excessive salt"]

/-- Breathlessness/fatigue-specific avoid list (diet.py lines 248-252). -/
def energy_avoid : List String :=
  ["Heavy meals", "Greasy food", "Excessive coffee"]

/-- Mucus-specific avoid list (diet.py lines 256-259). -/
def mucus_avoid : List String :=
  ["Milk & dairy", "Bananas (for some people)"]

/-- `get_foods_to_avoid` (diet.py lines 205-261): baseline plus per-tag
batches into a set, then `sorted(list(...))`. -/
def get_foods_to_avoid (conditions : List String) : List String :=
  let avoid := baseline_avoid
    ++ (if "inflammation" ∈ conditions then inflammation_avoid else [])
    ++ (if "smoker" ∈ conditions then smoker_avoid else [])
    ++ (if "nodules" ∈ conditions then nodules_avoid else [])
    ++ (if "breathlessness" ∈ conditions ∨ "fatigue" ∈ conditions
        then energy_avoid else [])
    ++ (if "mucus" ∈ conditions then mucus_avoid else [])
  pySortedSet avoid

/-- Per-tag avoid-list catalog as the spec words it: the avoid-list each
present tag contributes (breathlessness and fatigue share one list; tags
outside the catalog contribute nothing). -/
def avoidFor (tag : String) : List String :=
  if tag = "inflammation" then inflammation_avoid
  else if tag = "smoker" then smoker_avoid
  else if tag = "nodules" then nodules_avoid
  else if tag = "breathlessness" ∨ tag = "fatigue" then energy_avoid
  else if tag = "mucus" then mucus_avoid
  else []

/-! ### Content catalog: meal templates and the week plan
(diet.py lines 23-47, 264-385) -/

/-- `Meal` (diet.py lines 23-27). -/
structure Meal where
  name : String
  items : List String
  benefits : String
  time : String
deriving DecidableEq

/-- `DayPlan` (diet.py lines 30-35). -/
structure DayPlan where
  day : String
  breakfast : Meal
  lunch : Meal
  snack : Meal
  dinner : Meal
deriving DecidableEq

/-- A static meal template: the dicts held in the option lists. -/
structure MealTemplate where
  name : String
  items : List String
  benefits : String
deriving DecidableEq

/-- The seven weekday labels (diet.py line 267). -/
def days : List String :=
  ["Monday", "Tuesday", "Wednesday", "Thursday", "Friday", "Saturday", "Sunday"]

/-- Inflammation breakfast templates (diet.py lines 277-281). -/
def inflammation_breakfast_options : List MealTemplate :=
  [{ name := "Anti-Inflammatory Breakfast",
     items := ["Oats with turmeric", "Ginger tea", "Honey", "Strawberries"],
     benefits := "Reduces inflammation, soothes airways" },
   { name := "Healing Morning Bowl",
     items := ["Warm vegetable poha", "Tulsi tea", "Papaya slices"],
     benefits := "Anti-inflammatory, vitamin C boost" },
   { name := "Immunity Breakfast",
     items := ["Whole wheat toast", "Scrambled eggs with garlic", "Citrus fruit"],
     benefits := "Antimicrobial, protein-rich" }]

/-- Inflammation lunch templates (diet.py lines 282-286). -/
def inflammation_lunch_options : List MealTemplate :=
  [{ name := "Healing Lunch",
     items := ["Brown rice", "Turmeric dal", "Steamed broccoli", "Tomato soup"],
     benefits := "Anti-inflammatory, easy to digest" },
   { name := "Soothing Meal",
     items := ["Vegetable khichdi", "Spinach sabji", "Warm lemon water"],
     benefits := "Gentle on system, reduces inflammation" },
   { name := "Comfort Lunch",
     items := ["Chapati", "Moong dal", "Ginger-garlic vegetables", "Rasam"],
     benefits := "Warming spices, soothes throat" }]

/-- Smoker breakfast templates (diet.py lines 289-293). -/
def smoker_breakfast_options : List MealTemplate :=
  [{ name := "Detox Breakfast",
     items := ["Beetroot juice", "Oats with walnuts", "Green tea"],
     benefits := "Lung detox, removes toxins" },
   { name := "Cleansing Bowl",
     items := ["Carrot juice", "Whole grain toast", "Almonds", "Pomegranate"],
     benefits := "Antioxidants, lung cleansing" },
   { name := "Purifying Morning",
     items := ["Warm lemon water", "Spinach paratha", "Ginger tea"],
     benefits := "Detoxifies, high fiber" }]

/-- Smoker lunch templates (diet.py lines 294-298). -/
def smoker_lunch_options : List MealTemplate :=
  [{ name := "Detox Lunch",
     items := ["Brown rice", "Kale sabji", "Lentil soup", "Beetroot salad"],
     benefits := "Removes toxins, lung health" },
   { name := "Cleansing Meal",
     items := ["Quinoa", "Moringa curry", "Spinach dal", "Green salad"],
     benefits := "Fiber-rich, lung detox" },
   { name := "Purifying Thali",
     items := ["Chapati", "Mixed dal", "Leafy greens", "Carrot sabji"],
     benefits := "Antioxidants, cleansing" }]

/-- Nodules breakfast templates (diet.py lines 301-305). -/
def nodules_breakfast_options : List MealTemplate :=
  [{ name := "Antioxidant Breakfast",
     items := ["Berry smoothie", "Chia seeds", "Whole grain toast", "Green tea"],
     benefits := "Cancer-protective, antioxidants" },
   { name := "Protective Morning",
     items := ["Oats with flax seeds", "Blueberries", "Walnuts", "Tulsi tea"],
     benefits := "Anti-cancer nutrients" },
   { name := "Nourishing Start",
     items := ["Whole wheat paratha", "Paneer with turmeric", "Grapes"],
     benefits := "Resveratrol, protein" }]

/-- Nodules lunch templates (diet.py lines 306-310). -/
def nodules_lunch_options : List MealTemplate :=
  [{ name := "Protective Lunch",
     items := ["Brown rice", "Broccoli curry", "Tomato dal", "Cabbage salad"],
     benefits := "Cancer-protective vegetables" },
   { name := "Antioxidant Thali",
     items := ["Chapati", "Cauliflower sabji", "Lentils", "Carrot salad", "Green tea"],
     benefits := "Lycopene, antioxidants" },
   { name := "Wholesome Meal",
     items := ["Quinoa", "Mixed vegetables", "Sweet potato curry", "Olive oil dressing"],
     benefits := "Whole grains, beta-carotene" }]

/-- Breathlessness/fatigue breakfast templates (diet.py lines 313-317). -/
def energy_breakfast_options : List MealTemplate :=
  [{ name := "Energy Breakfast",
     items := ["Oats with banana", "Peanut butter", "Almonds", "Orange juice"],
     benefits := "Energy boost, iron-rich" },
   { name := "Power Morning",
     items := ["Scrambled eggs", "Spinach toast", "Beetroot juice"],
     benefits := "Iron, protein, oxygen support" },
   { name := "Strength Bowl",
     items := ["Whole grain cereal", "Nuts", "Kiwi", "Amla juice"],
     benefits := "Vitamin C, magnesium" }]

/-- Breathlessness/fatigue lunch templates (diet.py lines 318-322). -/
def energy_lunch_options : List MealTemplate :=
  [{ name := "Energy Lunch",
     items := ["Brown rice", "Spinach dal", "Beans curry", "Beetroot salad"],
     benefits := "Iron-rich, energy-boosting" },
   { name := "Power Thali",
     items := ["Chapati", "Paneer curry", "Lentils", "Green vegetables"],
     benefits := "Protein, magnesium" },
   { name := "Strength Meal",
     items := ["Quinoa", "Egg curry", "Spinach sabji", "Warm soup"],
     benefits := "Protein, iron, easy to digest" }]

/-- Routine breakfast templates (diet.py lines 325-329). -/
def routine_breakfast_options : List MealTemplate :=
  [{ name := "Healthy Breakfast",
     items := ["Oats with fruits", "Ginger lemon tea", "Nuts"],
     benefits := "Balanced nutrition, immunity" },
   { name := "Wholesome Morning",
     items := ["Whole wheat paratha", "Paneer", "Fruit bowl"],
     benefits := "Protein, vitamins" },
   { name := "Fresh Start",
     items := ["Vegetable poha", "Tulsi tea", "Apple"],
     benefits := "Light, nutritious" }]

/-- Routine lunch templates (diet.py lines 330-334). -/
def routine_lunch_options : List MealTemplate :=
  [{ name := "Balanced Lunch",
     items := ["Brown rice/Chapati", "Dal", "Steamed vegetables", "Spinach sabji"],
     benefits := "Complete nutrition" },
   { name := "Wellness Thali",
     items := ["Chapati", "Moong dal", "Mixed vegetables", "Salad"],
     benefits := "Fiber, vitamins, minerals" },
   { name := "Healthy Meal",
     items := ["Khichdi", "Vegetables", "Curd", "Lemon water"],
     benefits := "Easy digestion, probiotics" }]

/-- Shared snack templates (diet.py lines 337-343), condition-independent. -/
def snack_options : List MealTemplate :=
  [{ name := "Healthy Snack",
     items := ["Walnuts & almonds", "Green tea", "Apple"],
     benefits := "Antioxidants, healthy fats" },
   { name := "Evening Munch",
     items := ["Carrot sticks", "Hummus", "Herbal tea"],
     benefits := "Fiber, protein" },
   { name := "Light Bite",
     items := ["Fruit smoothie", "Handful of nuts", "Dates"],
     benefits := "Energy, vitamins" },
   { name := "Tea Time",
     items := ["Sprouts salad", "Green tea", "Orange"],
     benefits := "Protein, vitamin C" },
   { name := "Refresh Break",
     items := ["Roasted chickpeas", "Tulsi tea", "Berries"],
     benefits := "Protein, antioxidants" }]

/-- Shared dinner templates (diet.py lines 345-351), condition-independent. -/
def dinner_options : List MealTemplate :=
  [{ name := "Light Dinner",
     items := ["Vegetable soup", "Moong dal", "Light chapati"],
     benefits := "Easy to digest, light on stomach" },
   { name := "Evening Meal",
     items := ["Steamed vegetables", "Brown rice", "Lentil curry"],
     benefits := "Nutritious, light" },
   { name := "Night Bowl",
     items := ["Vegetable khichdi", "Steamed broccoli", "Warm water"],
     benefits := "Gentle, soothing" },
   { name := "Soothing Dinner",
     items := ["Tomato soup", "Chapati", "Spinach sabji"],
     benefits := "Light, nutritious" },
   { name := "Comfort Meal",
     items := ["Mixed dal", "Cauliflower curry", "Chapati"],
     benefits := "Protein-rich, easy digestion" }]

/-- `options[i % len(options)]` turned into a `Meal` with the given time
window (diet.py lines 358-381); the option lists used are all nonempty, so
the default is never reached. -/
def mealFrom (opts : List MealTemplate) (i : Nat) (time : String) : Meal :=
  let t := opts.getD (i % opts.length) { name := "", items := [], benefits := "" }
  { name := t.name, items := t.items, benefits := t.benefits, time := time }

/-- The `for i, day in enumerate(days)` loop of diet.py lines 354-385, for
given breakfast and lunch option lists. -/
def buildWeek (bOpts lOpts : List MealTemplate) : List DayPlan :=
  days.enum.map fun p =>
    { day := p.2,
      breakfast := mealFrom bOpts p.1 "7:00 AM - 8:00 AM",
      lunch := mealFrom lOpts p.1 "12:00 PM - 1:00 PM",
      snack := mealFrom snack_options p.1 "4:00 PM - 5:00 PM",
      dinner := mealFrom dinner_options p.1 "7:00 PM - 8:00 PM" }

/-- `generate_weekly_plan` (diet.py lines 264-385): the if/elif chain picks
the breakfast and lunch option lists, then the loop builds the 7 days. -/
def generate_weekly_plan (conditions : List String) : List DayPlan :=
  let breakfast_options :=
    if "inflammation" ∈ conditions then inflammation_breakfast_options
    else if "smoker" ∈ conditions then smoker_breakfast_options
    else if "nodules" ∈ conditions then nodules_breakfast_options
    else if "breathlessness" ∈ conditions ∨ "fatigue" ∈ conditions
      then energy_breakfast_options
    else routine_breakfast_options
  let lunch_options :=
    if "inflammation" ∈ conditions then inflammation_lunch_options
    else if "smoker" ∈ conditions then smoker_lunch_options
    else if "nodules" ∈ conditions then nodules_lunch_options
    else if "breathlessness" ∈ conditions ∨ "fatigue" ∈ conditions
      then energy_lunch_options
    else routine_lunch_options
  buildWeek breakfast_options lunch_options

/-! ### Content catalog: health tips (diet.py lines 388-441) -/

/-- Baseline tips (diet.py lines 391-399), 7 items. -/
def base_tips : List String :=
  ["Drink 8-10 glasses of warm water daily",
   "Avoid smoking and secondhand smoke",
   "Practice deep breathing exercises daily",
   "Get adequate sleep (7-8 hours)",
   "Avoid processed and packaged foods",
   "Eat meals at regular times",
   "Chew food slowly and thoroughly"]

/-- Inflammation tips (diet.py lines 402-407). -/
def inflammation_tips : List String :=
  ["Consume warm foods and beverages", "Add turmeric to your daily meals",
   "Practice steam inhalation", "Avoid cold and dairy products temporarily"]

/-- Smoker tips (diet.py lines 410-415). -/
def smoker_tips : List String :=
  ["Start with detox juices every morning",
   "Increase fiber intake to remove toxins",
   "Consider nicotine replacement therapy",
   "Join a smoking cessation program"]

/-- Nodules tips (diet.py lines 418-423). -/
def nodules_tips : List String :=
  ["Focus on colorful fruits and vegetables",
   "Include cruciferous vegetables daily",
   "Limit processed meat consumption",
   "Regular follow-up with your doctor"]

/-- Breathlessness tips (diet.py lines 426-431). -/
def breathlessness_tips : List String :=
  ["Eat smaller, frequent meals",
   "Avoid lying down immediately after eating",
   "Include iron-rich foods daily",
   "Practice pursed-lip breathing"]

/-- Mucus tips (diet.py lines 434-439). -/
def mucus_tips : List String :=
  ["Stay well-hydrated with warm liquids",
   "Avoid dairy until mucus clears",
   "Use honey as a natural expectorant",
   "Practice controlled coughing"]

/-- `get_health_tips` (diet.py lines 388-441): baseline list then one
`extend` per present tag, in program order. -/
def get_health_tips (conditions : List String) : List String :=
  base_tips
    ++ (if "inflammation" ∈ conditions then inflammation_tips else [])
    ++ (if "smoker" ∈ conditions then smoker_tips else [])
    ++ (if "nodules" ∈ conditions then nodules_tips else [])
    ++ (if "breathlessness" ∈ conditions then breathlessness_tips else [])
    ++ (if "mucus" ∈ conditions then mucus_tips else [])

/-! ### Spec-side reformulations (for the refinement claims)

These definitions follow the wording of the specification, to be compared
with the code translations above. -/

/-- Modelled from the spec wording of section 4.3: the single
highest-precedence matching condition under the precedence order
inflammation > smoker > nodules > (breathlessness or fatigue) > routine.
The breathlessness/fatigue bucket is named `energy` here. -/
def governingTag (conditions : List String) : String :=
  if "inflammation" ∈ conditions then "inflammation"
  else if "smoker" ∈ conditions then "smoker"
  else if "nodules" ∈ conditions then "nodules"
  else if "breathlessness" ∈ conditions ∨ "fatigue" ∈ conditions then "energy"
  else "routine"

/-- The breakfast option list of a condition bucket. -/
def breakfastOptionsFor (tag : String) : List MealTemplate :=
  if tag = "inflammation" then inflammation_breakfast_options
  else if tag = "smoker" then smoker_breakfast_options
  else if tag = "nodules" then nodules_breakfast_options
  else if tag = "energy" then energy_breakfast_options
  else routine_breakfast_options

/-- The lunch option list of a condition bucket. -/
def lunchOptionsFor (tag : String) : List MealTemplate :=
  if tag = "inflammation" then inflammation_lunch_options
  else if tag = "smoker" then smoker_lunch_options
  else if tag = "nodules" then nodules_lunch_options
  else if tag = "energy" then energy_lunch_options
  else routine_lunch_options

/-- The week schedule as the spec words it: 7 weekday labels, breakfast and
lunch from the highest-precedence matching condition bucket, snack and
dinner from the shared lists, all selected by day index modulo option list
length. -/
def specWeek (conditions : List String) : List DayPlan :=
  buildWeek (breakfastOptionsFor (governingTag conditions))
    (lunchOptionsFor (governingTag conditions))

/-- The fixed tag-check order of the tips blocks. -/
def tipCheckOrder : List String :=
  ["inflammation", "smoker", "nodules", "breathlessness", "mucus"]

/-- The extra tips a single present tag contributes. -/
def extraTipsFor (tag : String) : List String :=
  if tag = "inflammation" then inflammation_tips
  else if tag = "smoker" then smoker_tips
  else if tag = "nodules" then nodules_tips
  else if tag = "breathlessness" then breathlessness_tips
  else if tag = "mucus" then mucus_tips
  else []

/-! ### The external store and the plan endpoint (diet.py lines 445-508) -/

/-- A row of the `lung_cancer_assessments` table, exactly the keys inserted
by `create_assessment` (lung_cancer.py lines 135-147) plus the store-assigned
identity.  In particular `smoking_history` and `symptoms` hold the dicts of
the pydantic models, and there is no `ldct_reports` key. -/
structure AssessmentRow where
  id : Nat
  user_id : String
  demographics : Demographics
  smoking_history : SmokingHistoryRec
  medical_history : MedicalHistory
  environmental_exposures : EnvironmentalExposures
  symptoms : SymptomsFlags
  eligibility : ScreeningEligibility
  status : String
  notes : Option String
  created_at : Nat
  updated_at : Nat
deriving DecidableEq

/-- A row of the `ldct_reports` table, the keys inserted by
`upload_ldct_report` (lung_cancer.py lines 331-343). -/
structure LdctReportRow where
  id : Nat
  assessment_id : Nat
  patient_id : String
  scan_date : String
  clinical_history : String
  technique : String
  findings : String
  impression : String
  lung_rads : Int
  recommendation : String
  uploaded_at : String
deriving DecidableEq

/-- A row of the `diet_plans` table, the dict built by `get_diet_plan`
(diet.py lines 486-495) plus the store-assigned identity. -/
structure DietPlanRow where
  id : Nat
  user_id : String
  assessment_id : Nat
  week_plan : List DayPlan
  recommended_foods : List String
  foods_to_avoid : List String
  health_tips : List String
  generated_for : String
  created_at : String
deriving DecidableEq

/-- The external Supabase store, as the tables this core touches. -/
structure Store where
  lung_cancer_assessments : List AssessmentRow
  ldct_reports : List LdctReportRow
  diet_plans : List DietPlanRow
  next_plan_id : Nat
deriving DecidableEq

/-- Errors surfaced by the endpoint (HTTPException status classes). -/
inductive ApiError where
  | notFound
  | serverError
deriving DecidableEq

/-- The `order("created_at", desc=True).limit(1)` query over the rows of one
user: a row carrying the maximal `created_at` among the matching rows (on
equal timestamps the store order decides; we keep the earlier row). -/
def latestAssessment (rows : List AssessmentRow) (uid : String) :
    Option AssessmentRow :=
  (rows.filter (fun r => r.user_id = uid)).foldl
    (fun acc r =>
      match acc with
      | none => some r
      | some m => if m.created_at < r.created_at then some r else some m)
    none

/-- The assessment dict handed to `analyze_assessment_for_diet` by
`get_diet_plan`: the raw table row.  `select("*")` returns only the columns
of `lung_cancer_assessments`, so the dict has no `ldct_reports` key and
`assessment.get('ldct_reports', [])` yields `[]`; `symptoms` is the
boolean-flag dict and `smoking_history` the record dict persisted by
`create_assessment`. -/
def AssessmentRow.toDietView (row : AssessmentRow) : Assessment :=
  { symptoms := .flags row.symptoms,
    smoking_history := .record row.smoking_history,
    ldct_reports := [] }

/-- The diet-view of a stored LDCT report row (the fields the classifier
would read, had the row been attached to the assessment dict). -/
def LdctReportRow.toReport (row : LdctReportRow) : Report :=
  { findings := row.findings, lung_rads := row.lung_rads }

/-- The diet-plan dict built by `get_diet_plan` (diet.py lines 476-495):
classifier output of the fetched assessment row, composed components, and
the audit label. -/
def composePlanRow (setOrder : List String → List String) (now : String)
    (planId : Nat) (user_id : String) (assessment : AssessmentRow) :
    DietPlanRow :=
  let conditions :=
    (analyze_assessment_for_diet setOrder assessment.toDietView).conditions
  { id := planId,
    user_id := user_id,
    assessment_id := assessment.id,
    week_plan := generate_weekly_plan conditions,
    recommended_foods := get_recommended_foods conditions,
    foods_to_avoid := get_foods_to_avoid conditions,
    health_tips := get_health_tips conditions,
    generated_for := joinComma conditions,
    created_at := now }

/-- `get_diet_plan` (diet.py lines 445-508): fetch the latest assessment of
the caller (404 if none), return any existing plan for it unchanged,
otherwise classify, compose, persist and return the new plan.  `setOrder`
is the set iteration order of the process run, `now` the current timestamp. -/
def get_diet_plan (setOrder : List String → List String) (now : String)
    (st : Store) (user_id : String) : Except ApiError (DietPlanRow × Store) :=
  match latestAssessment st.lung_cancer_assessments user_id with
  | none => .error .notFound
  | some assessment =>
    match st.diet_plans.filter (fun p => p.assessment_id = assessment.id) with
    | p :: _ => .ok (p, st)
    | [] =>
      let row := composePlanRow setOrder now st.next_plan_id user_id assessment
      .ok (row, { st with diet_plans := st.diet_plans ++ [row],
                          next_plan_id := st.next_plan_id + 1 })

/-! ### Helper lemmas -/

theorem mem_firstDedupAux {x : String} :
    ∀ {l seen : List String}, x ∈ firstDedupAux seen l ↔ x ∈ l ∧ x ∉ seen := by
  intro l
  induction l with
  | nil => intro seen; simp [firstDedupAux]
  | cons y ys ih =>
    intro seen
    by_cases hy : y ∈ seen
    · simp only [firstDedupAux, if_pos hy, ih, List.mem_cons]
      by_cases hxy : x = y
      · subst hxy
        simp [hy]
      · simp [hxy]
    · simp only [firstDedupAux, if_neg hy, List.mem_cons, ih]
      by_cases hxy : x = y
      · subst hxy
        simp [hy]
      · simp [hxy]

theorem nodup_firstDedupAux :
    ∀ (l seen : List String), (firstDedupAux seen l).Nodup := by
  intro l
  induction l with
  | nil => intro seen; simp [firstDedupAux]
  | cons y ys ih =>
    intro seen
    by_cases hy : y ∈ seen
    · simpa [firstDedupAux, if_pos hy] using ih seen
    · simp only [firstDedupAux, if_neg hy, List.nodup_cons]
      refine ⟨fun hc => ?_, ih (y :: seen)⟩
      exact (mem_firstDedupAux.1 hc).2 (List.mem_cons_self y seen)

theorem mem_firstDedup {x : String} {l : List String} :
    x ∈ firstDedup l ↔ x ∈ l := by
  simp [firstDedup, mem_firstDedupAux]

theorem nodup_firstDedup (l : List String) : (firstDedup l).Nodup :=
  nodup_firstDedupAux l []

theorem admissible_firstDedup : Admissible firstDedup := by
  intro xs
  exact ⟨nodup_firstDedup xs, fun s hs => mem_firstDedup.1 hs,
    fun s hs => mem_firstDedup.2 hs⟩

theorem admissible_revDedup : Admissible revDedup := by
  intro xs
  refine ⟨?_, ?_, ?_⟩
  · exact (List.nodup_reverse).2 (nodup_firstDedup xs)
  · intro s hs
    exact mem_firstDedup.1 (List.mem_reverse.1 hs)
  · intro s hs
    exact List.mem_reverse.2 (mem_firstDedup.2 hs)

/-- An admissible set order cannot drop elements: nonempty in, nonempty out. -/
theorem Admissible.ne_nil {f : List String → List String} (hf : Admissible f)
    {xs : List String} (h : xs ≠ []) : f xs ≠ [] := by
  obtain ⟨x, hx⟩ := List.exists_mem_of_ne_nil xs h
  exact List.ne_nil_of_mem ((hf xs).2.2 x hx)

/-- An admissible set order maps a singleton to itself. -/
theorem Admissible.singleton {f : List String → List String}
    (hf : Admissible f) (x : String) : f [x] = [x] := by
  obtain ⟨hnd, hsub, hsup⟩ := hf [x]
  have hx : x ∈ f [x] := hsup x (List.mem_singleton_self x)
  match hout : f [x] with
  | [] => exact absurd (hout ▸ hx) (List.not_mem_nil x)
  | [y] =>
    have : y ∈ [x] := hsub y (hout ▸ List.mem_singleton_self y)
    simp_all
  | y :: z :: t =>
    have hy : y = x := List.mem_singleton.1 (hsub y (hout ▸ List.mem_cons_self _ _))
    have hz : z = x :=
      List.mem_singleton.1 (hsub z (hout ▸ List.mem_cons_of_mem _ (List.mem_cons_self _ _)))
    have := hout ▸ hnd
    simp [hy, hz, List.nodup_cons] at this

theorem charListLe_total : ∀ x y : List Char,
    charListLe x y = true ∨ charListLe y x = true := by
  intro x
  induction x with
  | nil => intro y; exact Or.inl rfl
  | cons a as ih =>
    intro y
    cases y with
    | nil => exact Or.inr rfl
    | cons b bs =>
      rcases lt_trichotomy a b with h | h | h
      · exact Or.inl (by simp [charListLe, h])
      · subst h
        rcases ih bs with h2 | h2
        · exact Or.inl (by simp [charListLe, lt_irrefl, h2])
        · exact Or.inr (by simp [charListLe, lt_irrefl, h2])
      · exact Or.inr (by simp [charListLe, h])

theorem charListLe_trans : ∀ x y z : List Char,
    charListLe x y = true → charListLe y z = true → charListLe x z = true := by
  intro x
  induction x with
  | nil => intro y z _ _; rfl
  | cons a as ih =>
    intro y z hxy hyz
    cases y with
    | nil => simp [charListLe] at hxy
    | cons b bs =>
      cases z with
      | nil => simp [charListLe] at hyz
      | cons c cs =>
        rcases lt_trichotomy a b with hab | hab | hab
        · rcases lt_trichotomy b c with hbc | hbc | hbc
          · simp [charListLe, lt_trans hab hbc]
          · subst hbc
            simp [charListLe, hab]
          · simp [charListLe, hbc, lt_asymm hbc] at hyz
        · subst hab
          rcases lt_trichotomy a c with hac | hac | hac
          · simp [charListLe, hac]
          · subst hac
            simp only [charListLe, lt_irrefl, if_false] at hxy hyz ⊢
            exact ih bs cs hxy hyz
          · simp [charListLe, hac, lt_asymm hac] at hyz
        · simp [charListLe, hab, lt_asymm hab] at hxy

instance : IsTotal String pyStrLe :=
  ⟨fun a b => charListLe_total a.data b.data⟩

instance : IsTrans String pyStrLe :=
  ⟨fun a b c => charListLe_trans a.data b.data c.data⟩

theorem mem_pySortedSet {x : String} {l : List String} :
    x ∈ pySortedSet l ↔ x ∈ l := by
  unfold pySortedSet
  rw [(List.perm_insertionSort pyStrLe (firstDedup l)).mem_iff]
  exact mem_firstDedup

theorem sorted_pySortedSet (l : List String) :
    (pySortedSet l).Sorted pyStrLe :=
  List.sorted_insertionSort pyStrLe (firstDedup l)

theorem nodup_pySortedSet (l : List String) : (pySortedSet l).Nodup :=
  (List.perm_insertionSort pyStrLe (firstDedup l)).nodup_iff.2 (nodup_firstDedup l)

/-- Membership in a conditional block of the catalog unions. -/
theorem mem_ite_nil {c : Prop} [Decidable c] {l : List String} {x : String} :
    x ∈ (if c then l else []) ↔ c ∧ x ∈ l := by
  by_cases h : c <;> simp [h]

/-! Lemmas about the report rules. -/

theorem mem_report_step_left {acc : List String × List String} {r : Report}
    {x : String} (h : x ∈ acc.1) : x ∈ (report_step acc r).1 := by
  unfold report_step
  dsimp only
  repeat' split
  all_goals simp [List.mem_append, h]

theorem nodules_mem_report_step (acc : List String × List String) (r : Report)
    (h : 3 ≤ r.lung_rads) : "nodules" ∈ (report_step acc r).1 := by
  unfold report_step
  dsimp only
  rw [if_pos h]
  repeat' split
  all_goals first
    | assumption
    | simp_all [List.mem_append]

theorem mem_report_step_cases {acc : List String × List String} {r : Report}
    {x : String} (h : x ∈ (report_step acc r).1) :
    x ∈ acc.1 ∨ x = "inflammation" ∨ x = "nodules" := by
  unfold report_step at h
  dsimp only at h
  repeat' split at h
  all_goals try simp only [List.mem_append, List.mem_singleton] at h
  all_goals tauto

theorem report_step_nofire {acc : List String × List String} {r : Report}
    (h1 : ∀ w ∈ inflammation_words, pyIn w (pyLower r.findings) = false)
    (h2 : ∀ w ∈ nodule_words, pyIn w (pyLower r.findings) = false)
    (h3 : r.lung_rads < 3) : report_step acc r = acc := by
  unfold report_step
  have e1 : inflammation_words.any (fun w => pyIn w (pyLower r.findings)) = false := by
    simp only [List.any_eq_false]
    intro w hw
    simp [h1 w hw]
  have e2 : nodule_words.any (fun w => pyIn w (pyLower r.findings)) = false := by
    simp only [List.any_eq_false]
    intro w hw
    simp [h2 w hw]
  simp [e1, e2, not_le.2 h3]

theorem mem_foldl_report_step {x : String} :
    ∀ {rs : List Report} {acc : List String × List String},
      x ∈ acc.1 → x ∈ (rs.foldl report_step acc).1 := by
  intro rs
  induction rs with
  | nil => intro acc h; exact h
  | cons r rs ih =>
    intro acc h
    rw [List.foldl_cons]
    exact ih (mem_report_step_left h)

theorem nodules_mem_foldl_report_step :
    ∀ {rs : List Report} {acc : List String × List String} {r : Report},
      r ∈ rs → 3 ≤ r.lung_rads → "nodules" ∈ (rs.foldl report_step acc).1 := by
  intro rs
  induction rs with
  | nil => intro acc r h; exact absurd h (List.not_mem_nil r)
  | cons r0 rs ih =>
    intro acc r hmem h3
    rw [List.foldl_cons]
    rcases List.mem_cons.1 hmem with he | ht
    · subst he
      exact mem_foldl_report_step (nodules_mem_report_step acc r h3)
    · exact ih ht h3

theorem mem_foldl_report_step_cases {x : String} :
    ∀ {rs : List Report} {acc : List String × List String},
      x ∈ (rs.foldl report_step acc).1 →
      x ∈ acc.1 ∨ x = "inflammation" ∨ x = "nodules" := by
  intro rs
  induction rs with
  | nil => intro acc h; exact Or.inl h
  | cons r rs ih =>
    intro acc h
    rw [List.foldl_cons] at h
    rcases ih h with hm | hx
    · rcases mem_report_step_cases hm with hm2 | hx2
      · exact Or.inl hm2
      · exact Or.inr hx2
    · exact Or.inr hx

theorem foldl_report_step_nofire :
    ∀ {rs : List Report} {acc : List String × List String},
      (∀ r ∈ rs,
        (∀ w ∈ inflammation_words, pyIn w (pyLower r.findings) = false) ∧
        (∀ w ∈ nodule_words, pyIn w (pyLower r.findings) = false) ∧
        r.lung_rads < 3) →
      rs.foldl report_step acc = acc := by
  intro rs
  induction rs with
  | nil => intro acc _; rfl
  | cons r rs ih =>
    intro acc h
    have hr := h r (List.mem_cons_self r rs)
    have : report_step acc r = acc := report_step_nofire hr.1 hr.2.1 hr.2.2
    simp only [List.foldl_cons, this]
    exact ih fun r' hr' => h r' (List.mem_cons_of_mem r hr')

/-! Lemmas about the symptom rules. -/

theorem symptom_step_nofire {s : String}
    (h : ∀ w ∈ symptom_words, pyIn w (pyLower s) = false) :
    symptom_step s = ([], []) := by
  unfold symptom_step
  have h1 := h "cough" (by simp [symptom_words])
  have h2 := h "mucus" (by simp [symptom_words])
  have h3 := h "breath" (by simp [symptom_words])
  have h4 := h "shortness" (by simp [symptom_words])
  have h5 := h "fatigue" (by simp [symptom_words])
  have h6 := h "tired" (by simp [symptom_words])
  simp [h1, h2, h3, h4, h5, h6]

theorem foldl_symptom_acc_step_nofire :
    ∀ {ss : List String} {acc : List String × List String},
      (∀ s ∈ ss, ∀ w ∈ symptom_words, pyIn w (pyLower s) = false) →
      ss.foldl symptom_acc_step acc = acc := by
  intro ss
  induction ss with
  | nil => intro acc _; rfl
  | cons s ss ih =>
    intro acc h
    have hs := symptom_step_nofire (h s (List.mem_cons_self s ss))
    simp only [List.foldl_cons, symptom_acc_step, hs, List.append_nil]
    exact ih fun s' hs' => h s' (List.mem_cons_of_mem s hs')

/-- The raw conditions list is never empty (routine fallback). -/
theorem conditions_raw_ne_nil (a : Assessment) : conditions_raw a ≠ [] := by
  unfold conditions_raw
  split
  · simp
  · assumption

/-- If the reports accumulator sees "nodules" fired, the fallback never
triggers and the raw conditions are the accumulated list. -/
theorem conditions_raw_eq_of_mem {a : Assessment} {x : String}
    (h : x ∈ (rules_raw a).1) : conditions_raw a = (rules_raw a).1 := by
  unfold conditions_raw
  rw [if_neg (List.ne_nil_of_mem h)]

/-- Membership characterization of the foods-to-avoid result: the baseline
union the per-tag avoid-lists of the present tags. -/
theorem mem_get_foods_to_avoid (conditions : List String) (x : String) :
    x ∈ get_foods_to_avoid conditions ↔
      x ∈ baseline_avoid ∨ ∃ t ∈ conditions, x ∈ avoidFor t := by
  unfold get_foods_to_avoid
  rw [mem_pySortedSet]
  simp only [List.mem_append, mem_ite_nil]
  constructor
  · rintro (((((hb | ⟨hc, hx⟩) | ⟨hc, hx⟩) | ⟨hc, hx⟩) | ⟨hc, hx⟩) | ⟨hc, hx⟩)
    · exact Or.inl hb
    · exact Or.inr ⟨"inflammation", hc, hx⟩
    · exact Or.inr ⟨"smoker", hc, hx⟩
    · exact Or.inr ⟨"nodules", hc, hx⟩
    · rcases hc with hc | hc
      · exact Or.inr ⟨"breathlessness", hc, hx⟩
      · exact Or.inr ⟨"fatigue", hc, hx⟩
    · exact Or.inr ⟨"mucus", hc, hx⟩
  · rintro (hb | ⟨t, ht, hx⟩)
    · exact Or.inl (Or.inl (Or.inl (Or.inl (Or.inl hb))))
    · unfold avoidFor at hx
      split at hx
      · next he =>
        exact Or.inl (Or.inl (Or.inl (Or.inl (Or.inr ⟨he ▸ ht, hx⟩))))
      · split at hx
        · next he =>
          exact Or.inl (Or.inl (Or.inl (Or.inr ⟨he ▸ ht, hx⟩)))
        · split at hx
          · next he =>
            exact Or.inl (Or.inl (Or.inr ⟨he ▸ ht, hx⟩))
          · split at hx
            · next he =>
              rcases he with he | he
              · exact Or.inl (Or.inr ⟨Or.inl (he ▸ ht), hx⟩)
              · exact Or.inl (Or.inr ⟨Or.inr (he ▸ ht), hx⟩)
            · split at hx
              · next he =>
                exact Or.inr ⟨he ▸ ht, hx⟩
              · exact absurd hx (List.not_mem_nil x)

/-! ### Concrete inputs used by witnesses and counterexamples -/

/-- An assessment firing no rule: unmatched symptom text, never-smoker
string, one clean low-severity report. -/
def c4Assessment : Assessment :=
  { symptoms := .strList ["mild headache"],
    smoking_history := .str "never",
    ldct_reports := [{ findings := "clear lungs", lung_rads := 1 }] }

/-- An assessment whose single report fires only the severity rule (no
nodule-vocabulary word in its findings). -/
def c5Assessment : Assessment :=
  { symptoms := .strList [],
    smoking_history := .str "never",
    ldct_reports := [{ findings := "clear scan", lung_rads := 4 }] }

/-- An assessment with the persisted boolean-flag symptoms object. -/
def c10Assessment : Assessment :=
  { symptoms := .flags
      { persistentCough := true, shortnessOfBreath := true, chestPain := false,
        unexplainedWeightLoss := false, hemoptysis := false,
        otherSymptoms := none },
    smoking_history := .str "current",
    ldct_reports := [] }

/-! ### Claim theorems -/

/-- Claim C4: for every assessment, the classifier output tag set (under any
admissible set iteration order) is never empty; and when no smoking, symptom
or report rule fires, it is exactly the singleton routine. -/
theorem C4_classifier_never_empty (f : List String → List String)
    (hf : Admissible f) (a : Assessment) :
    f (conditions_raw a) ≠ [] ∧
    (smoking_guard a.smoking_history = false →
     (∀ s ∈ symptom_strings a, ∀ w ∈ symptom_words, pyIn w (pyLower s) = false) →
     (∀ r ∈ a.ldct_reports,
       (∀ w ∈ inflammation_words, pyIn w (pyLower r.findings) = false) ∧
       (∀ w ∈ nodule_words, pyIn w (pyLower r.findings) = false) ∧
       r.lung_rads < 3) →
     f (conditions_raw a) = ["routine"]) := by
  constructor
  · exact hf.ne_nil (conditions_raw_ne_nil a)
  · intro hsm hsy hrep
    have h0 : smoking_step a = ([], []) := by
      unfold smoking_step
      simp [hsm]
    have h1 : rules_raw a = ([], []) := by
      show a.ldct_reports.foldl report_step
        ((symptom_strings a).foldl symptom_acc_step (smoking_step a)) = ([], [])
      rw [h0, foldl_symptom_acc_step_nofire hsy, foldl_report_step_nofire hrep]
    have h2 : conditions_raw a = ["routine"] := by
      unfold conditions_raw
      rw [h1]
      rfl
    rw [h2]
    exact hf.singleton "routine"

/-- Witness for C4 at a concrete no-rule-fires assessment and the
first-occurrence set order. -/
theorem C4_witness :
    firstDedup (conditions_raw c4Assessment) ≠ [] ∧
    firstDedup (conditions_raw c4Assessment) = ["routine"] := by
  have h := C4_classifier_never_empty firstDedup admissible_firstDedup c4Assessment
  exact ⟨h.1, h.2 (by decide) (by decide) (by decide)⟩

/-- Claim C5: a report with severity score at least 3 forces the nodules tag
even without any keyword match, and the classifier output contains nodules
exactly once. -/
theorem C5_severity_escalation (a : Assessment) (r : Report)
    (hr : r ∈ a.ldct_reports) (h3 : 3 ≤ r.lung_rads)
    (out : List String) (hout : IsSetList (conditions_raw a) out) :
    "nodules" ∈ out ∧ out.count "nodules" = 1 := by
  have hmem : "nodules" ∈ (rules_raw a).1 := by
    show "nodules" ∈ (a.ldct_reports.foldl report_step
      ((symptom_strings a).foldl symptom_acc_step (smoking_step a))).1
    exact nodules_mem_foldl_report_step hr h3
  have hc : "nodules" ∈ conditions_raw a := by
    rw [conditions_raw_eq_of_mem hmem]
    exact hmem
  have hin : "nodules" ∈ out := hout.2.2 _ hc
  exact ⟨hin, List.count_eq_one_of_mem hout.1 hin⟩

/-- Witness for C5 at a concrete keyword-free severity-4 report and the
first-occurrence set order. -/
theorem C5_witness :
    "nodules" ∈ firstDedup (conditions_raw c5Assessment) ∧
    (firstDedup (conditions_raw c5Assessment)).count "nodules" = 1 :=
  C5_severity_escalation c5Assessment { findings := "clear scan", lung_rads := 4 }
    (by decide) (by decide) (firstDedup (conditions_raw c5Assessment))
    (admissible_firstDedup _)

/-- Claim C10: a non-list symptoms value (such as the persisted boolean-flag
object) makes the classifier skip the symptom rules, so no mucus,
breathlessness or fatigue tag can be derived. -/
theorem C10_nonlist_symptoms_safe (a : Assessment)
    (h : a.symptoms.isList = false) :
    "mucus" ∉ conditions_raw a ∧ "breathlessness" ∉ conditions_raw a ∧
    "fatigue" ∉ conditions_raw a := by
  have hsy : symptom_strings a = [] := by
    cases hsf : a.symptoms with
    | strList items =>
      rw [show a.symptoms.isList = true from by rw [hsf]; rfl] at h
      exact absurd h (by simp)
    | flags fl => simp [symptom_strings, hsf]
  have key : ∀ x ∈ conditions_raw a,
      x = "smoker" ∨ x = "inflammation" ∨ x = "nodules" ∨ x = "routine" := by
    intro x hx
    unfold conditions_raw at hx
    split at hx
    · exact Or.inr (Or.inr (Or.inr (List.mem_singleton.1 hx)))
    · have hx2 : x ∈ (a.ldct_reports.foldl report_step
        ((symptom_strings a).foldl symptom_acc_step (smoking_step a))).1 := hx
      rcases mem_foldl_report_step_cases hx2 with hm | hx3 | hx3
      · rw [hsy] at hm
        simp only [List.foldl_nil] at hm
        unfold smoking_step at hm
        split at hm
        · exact Or.inl (List.mem_singleton.1 hm)
        · exact absurd hm (List.not_mem_nil x)
      · exact Or.inr (Or.inl hx3)
      · exact Or.inr (Or.inr (Or.inl hx3))
  refine ⟨fun hmem => ?_, fun hmem => ?_, fun hmem => ?_⟩ <;>
    rcases key _ hmem with h | h | h | h <;>
    exact absurd h (by decide)

/-- Witness for C10 at the persisted boolean-flag symptoms shape (with the
cough and breathlessness flags even set). -/
theorem C10_witness :
    "mucus" ∉ conditions_raw c10Assessment ∧
    "breathlessness" ∉ conditions_raw c10Assessment ∧
    "fatigue" ∉ conditions_raw c10Assessment :=
  C10_nonlist_symptoms_safe c10Assessment (by decide)

/-- An assessment firing two rules in a known order: the single symptom
string fires mucus first, then breathlessness. -/
def c2Assessment : Assessment :=
  { symptoms := .strList ["coughing and shortness of breath"],
    smoking_history := .str "",
    ldct_reports := [] }

/-- Claim C2, counterexample: it is not the case that for every admissible
set iteration order and every assessment the generated_for string lists the
tags in first-fired order; the reversed-dedup order is admissible and flips
a two-tag list. -/
theorem C2_counterexample :
    ¬ (∀ f : List String → List String, Admissible f → ∀ a : Assessment,
        joinComma (f (conditions_raw a)) =
          joinComma (firstDedup (conditions_raw a))) := fun h =>
  absurd (h revDedup admissible_revDedup c2Assessment) (by decide)

/-- Claim C2 (amended): the generated_for label lists the derived condition
tags each exactly once — a permutation of the first-fired deduplicated
order — but the particular order is the unspecified set iteration order. -/
theorem C2_generated_for_tags (f : List String → List String)
    (hf : Admissible f) (a : Assessment) :
    (f (conditions_raw a)).Perm (firstDedup (conditions_raw a)) := by
  rw [List.perm_ext_iff_of_nodup (hf _).1 (nodup_firstDedup _)]
  intro x
  rw [mem_firstDedup]
  exact ⟨fun hx => (hf _).2.1 x hx, fun hx => (hf _).2.2 x hx⟩

/-- Witness for amended C2 at the two-tag assessment and the reversed-dedup
set order. -/
theorem C2_witness :
    (revDedup (conditions_raw c2Assessment)).Perm
      (firstDedup (conditions_raw c2Assessment)) :=
  C2_generated_for_tags revDedup admissible_revDedup c2Assessment

/-- Claim C6: foods to avoid is the baseline list unioned with each present
tag's avoid-list, sorted lexicographically and duplicate-free, hence always
a superset of the 9 baseline items. -/
theorem C6_foods_to_avoid (conditions : List String) :
    (∀ x ∈ baseline_avoid, x ∈ get_foods_to_avoid conditions) ∧
    (get_foods_to_avoid conditions).Sorted pyStrLe ∧
    (get_foods_to_avoid conditions).Nodup ∧
    (∀ x, x ∈ get_foods_to_avoid conditions ↔
      x ∈ baseline_avoid ∨ ∃ t ∈ conditions, x ∈ avoidFor t) := by
  refine ⟨?_, ?_, ?_, mem_get_foods_to_avoid conditions⟩
  · intro x hx
    exact (mem_get_foods_to_avoid conditions x).2 (Or.inl hx)
  · exact sorted_pySortedSet _
  · exact nodup_pySortedSet _

/-- Witness for C6 at the smoker tag set: the smoker avoid-list and the
baseline both land in the result. -/
theorem C6_witness :
    "Red meat" ∈ get_foods_to_avoid ["smoker"] ∧
    "Alcohol" ∈ get_foods_to_avoid ["smoker"] :=
  ⟨((C6_foods_to_avoid ["smoker"]).2.2.2 "Red meat").2
      (Or.inr ⟨"smoker", by decide, by decide⟩),
   (C6_foods_to_avoid ["smoker"]).1 "Alcohol" (by decide)⟩

theorem buildWeek_map_day (b l : List MealTemplate) :
    (buildWeek b l).map DayPlan.day = days := rfl

theorem buildWeek_length (b l : List MealTemplate) :
    (buildWeek b l).length = 7 := rfl

theorem breakfastFor_inflammation_eq :
    breakfastOptionsFor "inflammation" = inflammation_breakfast_options := rfl

theorem breakfastFor_smoker_eq :
    breakfastOptionsFor "smoker" = smoker_breakfast_options := rfl

theorem breakfastFor_nodules_eq :
    breakfastOptionsFor "nodules" = nodules_breakfast_options := rfl

theorem breakfastFor_energy_eq :
    breakfastOptionsFor "energy" = energy_breakfast_options := rfl

theorem breakfastFor_routine_eq :
    breakfastOptionsFor "routine" = routine_breakfast_options := rfl

theorem lunchFor_inflammation_eq :
    lunchOptionsFor "inflammation" = inflammation_lunch_options := rfl

theorem lunchFor_smoker_eq :
    lunchOptionsFor "smoker" = smoker_lunch_options := rfl

theorem lunchFor_nodules_eq :
    lunchOptionsFor "nodules" = nodules_lunch_options := rfl

theorem lunchFor_energy_eq :
    lunchOptionsFor "energy" = energy_lunch_options := rfl

theorem lunchFor_routine_eq :
    lunchOptionsFor "routine" = routine_lunch_options := rfl

/-- Claim C7: the week schedule equals the spec-side composition (7 weekday
labels Monday through Sunday, breakfast and lunch from the single
highest-precedence matching condition under inflammation > smoker > nodules
> (breathlessness or fatigue) > routine, snack and dinner from the shared
lists, all by day index modulo option list length), and it has exactly 7
days with the fixed labels. -/
theorem C7_week_schedule (conditions : List String) :
    generate_weekly_plan conditions = specWeek conditions ∧
    (generate_weekly_plan conditions).map DayPlan.day = days ∧
    (generate_weekly_plan conditions).length = 7 := by
  refine ⟨?_, buildWeek_map_day _ _, buildWeek_length _ _⟩
  unfold generate_weekly_plan specWeek governingTag
  by_cases h1 : "inflammation" ∈ conditions <;>
  by_cases h2 : "smoker" ∈ conditions <;>
  by_cases h3 : "nodules" ∈ conditions <;>
  by_cases h4 : "breathlessness" ∈ conditions ∨ "fatigue" ∈ conditions <;>
  simp [h1, h2, h3, h4, breakfastFor_inflammation_eq, breakfastFor_smoker_eq,
    breakfastFor_nodules_eq, breakfastFor_energy_eq, breakfastFor_routine_eq,
    lunchFor_inflammation_eq, lunchFor_smoker_eq, lunchFor_nodules_eq,
    lunchFor_energy_eq, lunchFor_routine_eq]

theorem extraTips_inflammation_eq :
    extraTipsFor "inflammation" = inflammation_tips := rfl

theorem extraTips_smoker_eq : extraTipsFor "smoker" = smoker_tips := rfl

theorem extraTips_nodules_eq : extraTipsFor "nodules" = nodules_tips := rfl

theorem extraTips_breathlessness_eq :
    extraTipsFor "breathlessness" = breathlessness_tips := rfl

theorem extraTips_mucus_eq : extraTipsFor "mucus" = mucus_tips := rfl

/-- Claim C8: the health tips are the fixed 7-item baseline followed by the
extra tips of each present tag in the fixed check order inflammation,
smoker, nodules, breathlessness, mucus — concatenation, with no sorting and
no deduplication. -/
theorem C8_health_tips (conditions : List String) :
    get_health_tips conditions =
      base_tips ++
        ((tipCheckOrder.filter (fun t => decide (t ∈ conditions))).map
          extraTipsFor).flatten := by
  by_cases h1 : "inflammation" ∈ conditions <;>
  by_cases h2 : "smoker" ∈ conditions <;>
  by_cases h3 : "nodules" ∈ conditions <;>
  by_cases h4 : "breathlessness" ∈ conditions <;>
  by_cases h5 : "mucus" ∈ conditions <;>
  simp [get_health_tips, tipCheckOrder, List.filter, h1, h2, h3, h4, h5,
    extraTips_inflammation_eq, extraTips_smoker_eq, extraTips_nodules_eq,
    extraTips_breathlessness_eq, extraTips_mucus_eq]

/-! ### Endpoint step lemmas -/

theorem get_diet_plan_found (f : List String → List String) (n : String)
    (st : Store) (uid : String) (a : AssessmentRow) (q : DietPlanRow)
    (qs : List DietPlanRow)
    (ha : latestAssessment st.lung_cancer_assessments uid = some a)
    (hq : st.diet_plans.filter (fun p => p.assessment_id = a.id) = q :: qs) :
    get_diet_plan f n st uid = .ok (q, st) := by
  unfold get_diet_plan
  rw [ha]
  dsimp only
  rw [hq]

theorem get_diet_plan_create (f : List String → List String) (n : String)
    (st : Store) (uid : String) (a : AssessmentRow)
    (ha : latestAssessment st.lung_cancer_assessments uid = some a)
    (hq : st.diet_plans.filter (fun p => p.assessment_id = a.id) = []) :
    get_diet_plan f n st uid =
      .ok (composePlanRow f n st.next_plan_id uid a,
        { st with
          diet_plans := st.diet_plans ++ [composePlanRow f n st.next_plan_id uid a],
          next_plan_id := st.next_plan_id + 1 }) := by
  unfold get_diet_plan
  rw [ha]
  dsimp only
  rw [hq]

/-! ### Store-level claims -/

/-- Claim C9: if a plan is already stored for the assessment identity, a plan
request returns that stored plan with the store unchanged; and two
successive requests by the same caller return the same plan row, hence the
same plan identity. -/
theorem C9_idempotent (f₁ f₂ : List String → List String) (n₁ n₂ : String)
    (st : Store) (uid : String) :
    (∀ a, latestAssessment st.lung_cancer_assessments uid = some a →
      ∀ q qs, st.diet_plans.filter (fun p => p.assessment_id = a.id) = q :: qs →
      get_diet_plan f₁ n₁ st uid = .ok (q, st)) ∧
    (∀ p₁ st₁ p₂ st₂,
      get_diet_plan f₁ n₁ st uid = .ok (p₁, st₁) →
      get_diet_plan f₂ n₂ st₁ uid = .ok (p₂, st₂) →
      p₂ = p₁ ∧ p₂.id = p₁.id) := by
  constructor
  · intro a ha q qs hq
    exact get_diet_plan_found f₁ n₁ st uid a q qs ha hq
  · intro p₁ st₁ p₂ st₂ h₁ h₂
    cases hA : latestAssessment st.lung_cancer_assessments uid with
    | none =>
      unfold get_diet_plan at h₁
      rw [hA] at h₁
      exact absurd h₁ (by simp)
    | some a =>
      cases hF : st.diet_plans.filter (fun p => p.assessment_id = a.id) with
      | cons q qs =>
        rw [get_diet_plan_found f₁ n₁ st uid a q qs hA hF] at h₁
        simp only [Except.ok.injEq, Prod.mk.injEq] at h₁
        obtain ⟨hp, hs⟩ := h₁
        subst hp
        subst hs
        rw [get_diet_plan_found f₂ n₂ st uid a q qs hA hF] at h₂
        simp only [Except.ok.injEq, Prod.mk.injEq] at h₂
        obtain ⟨hp2, _⟩ := h₂
        exact ⟨hp2.symm, by rw [hp2]⟩
      | nil =>
        rw [get_diet_plan_create f₁ n₁ st uid a hA hF] at h₁
        simp only [Except.ok.injEq, Prod.mk.injEq] at h₁
        obtain ⟨hp, hs⟩ := h₁
        subst hp
        subst hs
        have ha₂ : latestAssessment
            ({ st with
               diet_plans := st.diet_plans ++ [composePlanRow f₁ n₁ st.next_plan_id uid a],
               next_plan_id := st.next_plan_id + 1 } : Store).lung_cancer_assessments
            uid = some a := hA
        have hF₂ : (st.diet_plans ++ [composePlanRow f₁ n₁ st.next_plan_id uid a]).filter
            (fun p => p.assessment_id = a.id) =
            composePlanRow f₁ n₁ st.next_plan_id uid a :: [] := by
          rw [List.filter_append, hF]
          simp [composePlanRow]
        rw [get_diet_plan_found f₂ n₂ _ uid a _ [] ha₂ hF₂] at h₂
        simp only [Except.ok.injEq, Prod.mk.injEq] at h₂
        obtain ⟨hp2, _⟩ := h₂
        exact ⟨hp2.symm, by rw [hp2]⟩

/-- The assessment row of the C9 witness store. -/
def c9AssessmentRow : AssessmentRow :=
  { id := 1, user_id := "u",
    demographics := { age := 60, sex := "female" },
    smoking_history :=
      { packsPerDay := 1, yearsSmoked := 25, packYears := 25,
        smokingStatus := "former", yearsQuit := some 5 },
    medical_history :=
      { hasLungDisease := false, lungDiseaseTypes := [],
        hasChestRadiation := false, hasFamilyHistory := false,
        familyHistoryDetails := none },
    environmental_exposures :=
      { radonExposure := false, asbestosExposure := false,
        airPollutionExposure := false, secondhandSmokeExposure := false,
        exposureDetails := none },
    symptoms :=
      { persistentCough := false, shortnessOfBreath := false,
        chestPain := false, unexplainedWeightLoss := false,
        hemoptysis := false, otherSymptoms := none },
    eligibility :=
      { isEligible := true, reason := "meets criteria", criteria := [],
        recommendation := "Annual LDCT screening" },
    status := "screening-eligible", notes := none,
    created_at := 10, updated_at := 10 }

/-- A stored diet plan for the C9 witness store. -/
def c9Plan : DietPlanRow :=
  { id := 3, user_id := "u", assessment_id := 1, week_plan := [],
    recommended_foods := [], foods_to_avoid := [], health_tips := [],
    generated_for := "routine", created_at := "t0" }

/-- A store that already holds a plan for the latest assessment of user u. -/
def c9Store : Store :=
  { lung_cancer_assessments := [c9AssessmentRow], ldct_reports := [],
    diet_plans := [c9Plan], next_plan_id := 4 }

/-- Witness for C9: on the concrete store holding a plan, the request
returns exactly that plan and leaves the store unchanged. -/
theorem C9_witness :
    get_diet_plan firstDedup "t1" c9Store "u" = Except.ok (c9Plan, c9Store) :=
  (C9_idempotent firstDedup firstDedup "t1" "t1" c9Store "u").1 c9AssessmentRow
    (by rfl) c9Plan [] (by rfl)

/-- The assessment row of the C1 failing input: a persisted screening with
no matching smoking or symptom data. -/
def c1AssessmentRow : AssessmentRow :=
  { id := 1, user_id := "u1",
    demographics := { age := 62, sex := "male" },
    smoking_history :=
      { packsPerDay := 1, yearsSmoked := 0, packYears := 0,
        smokingStatus := "never", yearsQuit := none },
    medical_history :=
      { hasLungDisease := false, lungDiseaseTypes := [],
        hasChestRadiation := false, hasFamilyHistory := false,
        familyHistoryDetails := none },
    environmental_exposures :=
      { radonExposure := false, asbestosExposure := false,
        airPollutionExposure := false, secondhandSmokeExposure := false,
        exposureDetails := none },
    symptoms :=
      { persistentCough := false, shortnessOfBreath := false,
        chestPain := false, unexplainedWeightLoss := false,
        hemoptysis := false, otherSymptoms := none },
    eligibility :=
      { isEligible := true, reason := "meets criteria", criteria := [],
        recommendation := "Annual LDCT screening" },
    status := "screening-eligible", notes := none,
    created_at := 10, updated_at := 10 }

/-- The stored LDCT report of the C1 failing input: the spec scenario report
(findings mention a suspicious nodule, Lung-RADS 4). -/
def c1ReportRow : LdctReportRow :=
  { id := 1, assessment_id := 1, patient_id := "u1",
    scan_date := "2026-01-02", clinical_history := "",
    technique := "Low-dose CT", findings := "suspicious nodule noted",
    impression := "Lung-RADS 4", lung_rads := 4,
    recommendation := "PET-CT recommended", uploaded_at := "2026-01-03" }

/-- Store holding the scenario assessment and its LDCT report, no plan yet. -/
def c1Store : Store :=
  { lung_cancer_assessments := [c1AssessmentRow],
    ldct_reports := [c1ReportRow], diet_plans := [], next_plan_id := 7 }

/-- Claim C1, code evaluation at the failing input: with the scenario LDCT
report stored, the freshly generated plan is still tagged routine (the
endpoint never loads the report rows), although the classifier would derive
the nodules tag had the stored reports been attached to the assessment
dict. -/
theorem C1_code_eval :
    Except.map (fun pr => pr.1.generated_for)
      (get_diet_plan firstDedup "2026-01-04" c1Store "u1") =
      Except.ok "routine" ∧
    "nodules" ∈ conditions_raw
      { c1AssessmentRow.toDietView with
        ldct_reports := c1Store.ldct_reports.map LdctReportRow.toReport } :=
  ⟨rfl, by decide⟩

/-- The C3 failing input: the assessment dict exactly as persisted by
create_assessment, with smoking status current inside the smoking-history
record. -/
def c3Assessment : Assessment :=
  { symptoms := .flags
      { persistentCough := false, shortnessOfBreath := false,
        chestPain := false, unexplainedWeightLoss := false,
        hemoptysis := false, otherSymptoms := none },
    smoking_history := .record
      { packsPerDay := 1, yearsSmoked := 20, packYears := 20,
        smokingStatus := "current", yearsQuit := none },
    ldct_reports := [] }

/-- The same assessment with the bare-string smoking_history shape the
classifier actually tests for. -/
def c3StrAssessment : Assessment :=
  { c3Assessment with smoking_history := .str "current" }

/-- Claim C3, code evaluation at the failing input: for the persisted
record shape with status current the classifier never adds the smoker tag
and falls back to routine, while the bare string current would have fired
the rule. -/
theorem C3_code_eval :
    conditions_raw c3Assessment = ["routine"] ∧
    "smoker" ∉ conditions_raw c3Assessment ∧
    conditions_raw c3StrAssessment = ["smoker"] := by
  refine ⟨by decide, by decide, by decide⟩

end Oxyheal







